import Mathlib

set_option maxHeartbeats 1000000

/-!
Verification development for map.py of the colorado-course-map repository.

The script reads a spreadsheet of golf courses, normalizes the course type,
drops rows without numeric coordinates, recovers hyperlink targets from the
raw workbook, builds one record per remaining row, and writes an HTML map
plus a JSON export.  The definitions below are a shallow embedding of that
transformation pipeline; theorems about the frozen specification claims
follow after the definitions.

String primitives (strip, lower, split, the numeric and date acceptors)
are implemented over the character list of the string so that every
definition evaluates inside the kernel.
-/

/-- Removes leading and trailing whitespace, the effect of Python
str.strip(). -/
def listTrim (cs : List Char) : List Char :=
  ((cs.dropWhile Char.isWhitespace).reverse.dropWhile Char.isWhitespace).reverse

/-- Embeds Python str.strip(). -/
def pyStrip (s : String) : String :=
  ⟨listTrim s.data⟩

/-- Embeds Python str.lower() on the alphabets used by the data. -/
def pyLower (s : String) : String :=
  ⟨s.data.map Char.toLower⟩

/-- First list is a prefix of the second. -/
def listIsPre : List Char → List Char → Bool
  | [], _ => true
  | _ :: _, [] => false
  | a :: as, b :: bs => a == b && listIsPre as bs

/-- Embeds Python str.startswith(p). -/
def pyStartsWith (s p : String) : Bool :=
  listIsPre p.data s.data

/-- Split a character list at every occurrence of the separator, the
effect of Python str.split(sep) for a one-character separator. -/
def splitOnChar (sep : Char) : List Char → List (List Char)
  | [] => [[]]
  | c :: cs =>
      match splitOnChar sep cs with
      | [] => if c == sep then [[], []] else [[c]]
      | h :: t => if c == sep then [] :: h :: t else (c :: h) :: t

/-- Digit run to number; none when the list is empty or holds a
non-digit character. -/
def decDigitsL (cs : List Char) : Option Nat :=
  if cs ≠ [] ∧ cs.all Char.isDigit then
    some (cs.foldl (fun n c => n * 10 + (c.toNat - 48)) 0)
  else none

/-- A calendar date as used by the date-formatting helper. -/
structure PDate where
  year : Nat
  month : Nat
  day : Nat
deriving DecidableEq, Repr

/-- Spreadsheet cell values as seen through pandas: a missing value
(NaN or None), a numeric value, a text value, or a datetime value. -/
inductive CellVal where
  | blank : CellVal
  | num : ℚ → CellVal
  | str : String → CellVal
  | date : PDate → CellVal
deriving DecidableEq, Repr

/-- Embeds normalize_type (map.py lines 34-46): non-strings and blank
strings map to "Public"; otherwise the trimmed lowercased text is compared
against an exact list of spellings, with "Public" as the fallback. -/
def normalize_type : CellVal → String
  | CellVal.str x =>
      if pyStrip x = "" then "Public"
      else
        if pyLower (pyStrip x) = "semi private" ∨ pyLower (pyStrip x) = "semi-private" ∨ pyLower (pyStrip x) = "semi" then
          "Semi-Private"
        else if pyLower (pyStrip x) = "public" then "Public"
        else if pyLower (pyStrip x) = "private" then "Private"
        else if pyLower (pyStrip x) = "resort" then "Resort"
        else "Public"
  | _ => "Public"

/-- Embeds is_blank (map.py lines 49-59): NaN/None and whitespace-only
strings are blank; any other value is not. -/
def is_blank : CellVal → Bool
  | CellVal.blank => true
  | CellVal.str s => decide (pyStrip s = "")
  | _ => false

/-- The fractional-literal acceptor behind pd.to_numeric on plain decimal
strings: an optional integer part and an optional fractional part
separated by one dot, at least one part non-empty.  Exponent forms and
other inputs pandas may accept are outside the scope of the claims and
map to none. -/
def parseUnsignedL (cs : List Char) : Option ℚ :=
  match splitOnChar '.' cs with
  | [w] => (decDigitsL w).map (fun n => (n : ℚ))
  | [w, f] =>
      match decDigitsL w, decDigitsL f with
      | some nw, some nf => some ((nw : ℚ) + (nf : ℚ) / ((10 : ℚ) ^ f.length))
      | some nw, none => if f = [] then some ((nw : ℚ)) else none
      | none, some nf => if w = [] then some ((nf : ℚ) / ((10 : ℚ) ^ f.length)) else none
      | none, none => none
  | _ => none

/-- Embeds pd.to_numeric(..., errors="coerce") applied to one cell
(map.py lines 174-175): numbers pass through, missing values coerce to
NaN (none), strings are parsed as signed decimal literals. -/
def toNumeric : CellVal → Option ℚ
  | CellVal.num q => some q
  | CellVal.blank => none
  | CellVal.date _ => none
  | CellVal.str s =>
      match listTrim s.data with
      | '-' :: rest => (parseUnsignedL rest).map (fun q => -q)
      | '+' :: rest => parseUnsignedL rest
      | cs => parseUnsignedL cs

/-- Truncation toward zero, the behavior of Python int() on a float. -/
def pyTrunc (q : ℚ) : Int := q.num / (q.den : Int)

/-- Embeds Python int(value) as used on the Order cell (map.py line 217):
floats truncate toward zero, strings must be a signed run of digits
(surrounding whitespace tolerated), anything else raises (none). -/
def pyInt : CellVal → Option Int
  | CellVal.num q => some (pyTrunc q)
  | CellVal.str s =>
      match listTrim s.data with
      | '-' :: rest => (decDigitsL rest).map (fun n => -(n : Int))
      | '+' :: rest => (decDigitsL rest).map (fun n => (n : Int))
      | cs => (decDigitsL cs).map (fun n => (n : Int))
  | _ => none

/-- Embeds strftime("%-m/%-d/%Y"): month and day without zero padding. -/
def fmtMDY (d : PDate) : String :=
  toString d.month ++ "/" ++ toString d.day ++ "/" ++ toString d.year

/-- Embeds pd.to_datetime(s, errors="coerce") on slash-separated
month/day/year strings; other string formats pandas may accept are
outside the scope of the claims and map to none (NaT). -/
def parseDate (s : String) : Option PDate :=
  match splitOnChar '/' s.data with
  | [ms, ds, ys] =>
      match decDigitsL ms, decDigitsL ds, decDigitsL ys with
      | some m, some d, some y =>
          if 1 ≤ m ∧ m ≤ 12 ∧ 1 ≤ d ∧ d ≤ 31 ∧ 1000 ≤ y then some ⟨y, m, d⟩ else none
      | _, _, _ => none
  | _ => none

/-- Embeds Python str() on a cell value, as used by clean_text and
fmt_date.  Numeric cells render in decimal notation. -/
def pyStr : CellVal → String
  | CellVal.str s => s
  | CellVal.num q => toString q
  | CellVal.date d => fmtMDY d
  | CellVal.blank => ""

/-- The string branch of fmt_date (map.py lines 83-93): strip, map the
empty string to the placeholder, try the date parser, format on success
and return the stripped text itself on failure. -/
def fmtDateStr (s0 : String) : String :=
  if pyStrip s0 = "" then "—"
  else
    match parseDate (pyStrip s0) with
    | some d => fmtMDY d
    | none => pyStrip s0

/-- Embeds fmt_date (map.py lines 62-93): missing values and NaT give the
placeholder, datetime values are formatted directly, anything else is
stringified and run through the string branch. -/
def fmt_date : CellVal → String
  | CellVal.blank => "—"
  | CellVal.date d => fmtMDY d
  | CellVal.num q => fmtDateStr (toString q)
  | CellVal.str s => fmtDateStr s

/-- Embeds clean_text (map.py lines 96-99). -/
def clean_text (v : CellVal) : String :=
  if is_blank v then "" else pyStrip (pyStr v)

/-- Uppercase hexadecimal digit for percent-encoding. -/
def hexUpper (n : Nat) : Char :=
  if n < 10 then Char.ofNat (48 + n) else Char.ofNat (55 + n)

/-- Embeds urllib.parse.quote with its default safe set: letters, digits,
underscore, dot, hyphen, tilde and the slash pass through; every other
character is percent-encoded from its UTF-8 bytes. -/
def pyQuote (s : String) : String :=
  String.join (s.data.map (fun c =>
    if c.isAlphanum ∨ c = '_' ∨ c = '.' ∨ c = '-' ∨ c = '~' ∨ c = '/' then
      String.singleton c
    else
      String.join (((String.singleton c).toUTF8.toList).map (fun b =>
        "%" ++ String.singleton (hexUpper (b.toNat / 16)) ++ String.singleton (hexUpper (b.toNat % 16))))))

/-- Embeds build_maps_links (map.py lines 102-106); returns
(apple, google). -/
def build_maps_links (address : String) : String × String :=
  ("https://maps.apple.com/?q=" ++ pyQuote address,
   "https://www.google.com/maps/search/?api=1&query=" ++ pyQuote address)

/-- A hyperlink object attached to a workbook cell; its target may be
absent, as openpyxl allows location-only hyperlinks. -/
structure Hyperlink where
  target : Option String
deriving DecidableEq, Repr

/-- A raw workbook cell as read by openpyxl: an optional hyperlink object
plus the displayed value. -/
structure XlsxCell where
  hyperlink : Option Hyperlink
  value : CellVal
deriving DecidableEq, Repr

/-- A data row of the workbook restricted to the two columns
extract_reel_links_xlsx reads: the key (Course) cell value and the link
(Reel) cell. -/
structure XlsxRow where
  course : CellVal
  reelCell : XlsxCell
deriving DecidableEq, Repr

/-- The hyperlink part of the per-cell URL logic (map.py lines 143-146):
Python keeps the stripped target when the hyperlink object and its target
are both truthy, the empty string otherwise. -/
def hyperlinkUrl : Option Hyperlink → String
  | some hl =>
      match hl.target with
      | some t => if t = "" then "" else pyStrip t
      | none => ""
  | none => ""

/-- The text-value fallback (map.py lines 148-151, duplicated at lines
226-228): a string whose trimmed lowercase form starts with "http" yields
its trimmed form; anything else yields the empty string. -/
def textFallbackUrl : CellVal → String
  | CellVal.str v => if pyStartsWith (pyLower (pyStrip v)) "http" then pyStrip v else ""
  | _ => ""

/-- The URL computed for one link cell (map.py lines 142-151): the
hyperlink target wins when it strips to something non-empty, else the
text-value fallback (which may itself be empty). -/
def cellUrl (cell : XlsxCell) : String :=
  if hyperlinkUrl cell.hyperlink = "" then textFallbackUrl cell.value else hyperlinkUrl cell.hyperlink

/-- Python dict modelled as a lookup function; extract_reel_links_xlsx
only ever reads its result through .get. -/
def dictSet (m : String → Option String) (k v : String) : String → Option String :=
  fun x => if x = k then some v else m x

/-- Embeds dict.get(k, d). -/
def dictGetD (m : String → Option String) (k d : String) : String :=
  (m k).getD d

/-- One iteration of the row scan of extract_reel_links_xlsx (map.py
lines 136-153): rows whose key cell is not a non-blank string are
skipped; every other row binds its trimmed course name to the computed
URL, overwriting any earlier binding. -/
def reelStep (out : String → Option String) (r : XlsxRow) : String → Option String :=
  match r.course with
  | CellVal.str c => if pyStrip c = "" then out else dictSet out (pyStrip c) (cellUrl r.reelCell)
  | _ => out

/-- Embeds the row scan of extract_reel_links_xlsx (map.py lines
135-155) over the data rows of a workbook whose header row carries both
the Course and the Reel column (the missing-header path returns the
empty dict and is not exercised by any claim). -/
def extractReelLinks (rows : List XlsxRow) : String → Option String :=
  rows.foldl reelStep (fun _ => none)

/-- Whether a workbook row bears the given trimmed course name (used to
state which row a dict entry came from). -/
def matchesName (name : String) (r : XlsxRow) : Bool :=
  match r.course with
  | CellVal.str c => decide (pyStrip c ≠ "" ∧ pyStrip c = name)
  | _ => false

/-- Accumulator step picking the last matching row. -/
def lastUpd (name : String) (a : Option XlsxRow) (r : XlsxRow) : Option XlsxRow :=
  if matchesName name r then some r else a

/-- The last row of the workbook bearing the given trimmed course name. -/
def lastMatch (name : String) (rows : List XlsxRow) : Option XlsxRow :=
  rows.foldl (lastUpd name) none

/-- One input row of the tabular snapshot (pandas DataFrame) restricted
to the columns map.py reads. -/
structure Row where
  course : CellVal
  address : CellVal
  city : CellVal
  rtype : CellVal
  region : CellVal
  lat : CellVal
  lng : CellVal
  firstPlayed : CellVal
  order : CellVal
  reel : CellVal
deriving DecidableEq, Repr

/-- A row after the column-level transforms of map.py lines 173-175:
Type normalized, Lat and Long coerced to numbers (none = NaN). -/
structure ParsedRow where
  course : CellVal
  address : CellVal
  city : CellVal
  rtype : String
  region : CellVal
  lat : Option ℚ
  lng : Option ℚ
  firstPlayed : CellVal
  order : CellVal
  reel : CellVal
deriving DecidableEq, Repr

/-- Embeds the column transforms df["Type"]=..., df["Lat"]=...,
df["Long"]=... (map.py lines 173-175) on one row. -/
def parseRow (r : Row) : ParsedRow :=
  { course := r.course
    address := r.address
    city := r.city
    rtype := normalize_type r.rtype
    region := r.region
    lat := toNumeric r.lat
    lng := toNumeric r.lng
    firstPlayed := r.firstPlayed
    order := r.order
    reel := r.reel }

/-- Which optional columns the spreadsheet carries (map.py lines
169-171). -/
structure ColFlags where
  hasFirstPlayed : Bool
  hasOrder : Bool
  hasReel : Bool
deriving DecidableEq, Repr

/-- One element of the courses_export JSON array (map.py lines
323-340). -/
structure Record where
  name : String
  city : String
  region : String
  type : String
  address : String
  lat : ℚ
  lng : ℚ
  played : Bool
  first_played : String
  order : Option String
  video_url : String
  has_video : Bool
  apple_maps : String
  google_maps : String
deriving DecidableEq, Repr

/-- The per-marker metadata collected into markers_meta (map.py lines
319-321) for the client-side filter logic. -/
structure MarkerMeta where
  type : String
  played : Bool
  video : Bool
deriving DecidableEq, Repr

/-- The dropna(subset=["Lat","Long"]) test (map.py line 176) on a
transformed row. -/
def keepParsed (r : ParsedRow) : Bool :=
  r.lat.isSome && r.lng.isSome

/-- A raw input row survives the coordinate filter exactly when both of
its coordinate cells coerce to numbers. -/
def validRow (r : Row) : Bool :=
  (toNumeric r.lat).isSome && (toNumeric r.lng).isSome

/-- Embeds the body of the row loop (map.py lines 204-340) producing the
courses_export element of one surviving row.  The dropna step guarantees
the coordinate options are populated; their defaults are unreachable. -/
def buildRecord (flags : ColFlags) (links : String → Option String) (r : ParsedRow) : Record :=
  let course := clean_text r.course
  let city := clean_text r.city
  let ctype := normalize_type (CellVal.str r.rtype)
  let region := clean_text r.region
  let address := clean_text r.address
  let first_played_val := if flags.hasFirstPlayed then fmt_date r.firstPlayed else "—"
  let order_val :=
    if flags.hasOrder && !(is_blank r.order) then
      match pyInt r.order with
      | some n => toString n
      | none => if clean_text r.order = "" then "—" else clean_text r.order
    else "—"
  let reel_url :=
    if flags.hasReel then
      if dictGetD links course "" ≠ "" then dictGetD links course ""
      else textFallbackUrl r.reel
    else ""
  let addr_query := if address ≠ "" then address else course ++ ", " ++ city ++ ", CO"
  { name := course
    city := city
    region := region
    type := ctype
    address := address
    lat := r.lat.getD 0
    lng := r.lng.getD 0
    played := first_played_val != "—"
    first_played := first_played_val
    order := if order_val = "—" then none else some order_val
    video_url := reel_url
    has_video := reel_url != ""
    apple_maps := (build_maps_links addr_query).1
    google_maps := (build_maps_links addr_query).2 }

/-- The markers_meta element of one surviving row; the loop computes it
from the same locals as the export record (map.py lines 319-321). -/
def markerMetaOf (flags : ColFlags) (links : String → Option String) (r : ParsedRow) : MarkerMeta :=
  { type := (buildRecord flags links r).type
    played := (buildRecord flags links r).played
    video := (buildRecord flags links r).has_video }

/-- Embeds the data pipeline feeding the JSON export: column transforms
(lines 173-175), dropna on the coordinates (line 176), then the row loop
appending one record per surviving row (lines 204-340). -/
def coursesExport (flags : ColFlags) (links : String → Option String) (rows : List Row) : List Record :=
  (((rows.map parseRow).filter keepParsed).foldl (fun acc r => acc ++ [buildRecord flags links r]) [])

/-- The markers_meta list accumulated by the same loop. -/
def markersMetaList (flags : ColFlags) (links : String → Option String) (rows : List Row) : List MarkerMeta :=
  (((rows.map parseRow).filter keepParsed).foldl (fun acc r => acc ++ [markerMetaOf flags links r]) [])

/-- The required column list (map.py line 164). -/
def required_cols : List String :=
  ["Course", "Address", "City", "Type", "Region", "Lat", "Long"]

/-- Embeds the missing-column computation (map.py line 165). -/
def missingCols (columns : List String) : List String :=
  required_cols.filter (fun c => !(columns.contains c))

/-- An ASCII apostrophe, used by the Python repr of a string list. -/
def squote : String := String.singleton (Char.ofNat 39)

/-- Separator-interleaved concatenation. -/
def strJoinSep (sep : String) : List String → String
  | [] => ""
  | [x] => x
  | x :: y :: xs => x ++ sep ++ strJoinSep sep (y :: xs)

/-- Python repr of a list of plain strings, as interpolated into the
ValueError message (map.py line 167). -/
def pyRepr (l : List String) : String :=
  "[" ++ strJoinSep ", " (l.map (fun s => squote ++ s ++ squote)) ++ "]"

/-- The ValueError message of map.py line 167. -/
def errorMsg (missing : List String) : String :=
  "Missing columns: " ++ pyRepr missing ++ ". Required: " ++ pyRepr required_cols

/-- The optional-column detection of map.py lines 169-171. -/
def colFlagsOf (cols : List String) : ColFlags :=
  { hasFirstPlayed := cols.contains "1st Played"
    hasOrder := cols.contains "Order"
    hasReel := cols.contains "Reel" }

/-- Embeds the top of the script (map.py lines 161-176 and 323-340):
strip the header names, abort with the ValueError when a required column
is missing, otherwise run the pipeline and produce the export. -/
def runProgram (columns : List String) (links : String → Option String) (rows : List Row) : Except String (List Record) :=
  if (missingCols (columns.map pyStrip)).isEmpty then
    Except.ok (coursesExport (colFlagsOf (columns.map pyStrip)) links rows)
  else
    Except.error (errorMsg (missingCols (columns.map pyStrip)))

/-- The per-marker visibility recomputation of applyFilters (the script
generated at map.py lines 473-505): ok starts as the state of the
category checkbox, is conjoined with the played flag when the
played-only toggle is on, and with the video flag when the has-video
toggle is on; the marker ends up on the map exactly when ok holds. -/
def markerVisible (typeState : String → Bool) (playedOnly videoOnly : Bool) (mm : MarkerMeta) : Bool :=
  let ok1 := typeState mm.type
  let ok2 := if playedOnly then ok1 && mm.played else ok1
  let ok3 := if videoOnly then ok2 && mm.video else ok2
  ok3

/-- Flipping one category checkbox (the change event of a type-toggle
input). -/
def setChecked (typeState : String → Bool) (c : String) (b : Bool) : String → Bool :=
  fun t => if t = c then b else typeState t

/-- The keys of TYPE_COLORS (map.py lines 20-25), the fixed category
set. -/
def fixedTypes : List String :=
  ["Public", "Private", "Semi-Private", "Resort"]

/-- Appending one element per fold step is the same as appending the map. -/
theorem foldl_snoc_map {α β : Type} (f : α → β) (l : List α) (acc : List β) :
    l.foldl (fun a x => a ++ [f x]) acc = acc ++ l.map f := by
  induction l generalizing acc with
  | nil => simp
  | cons x t ih => simp [ih]

/-- The coordinate filter commutes with the per-row column transforms. -/
theorem filter_parse_comm (l : List Row) :
    (l.map parseRow).filter keepParsed = (l.filter validRow).map parseRow := by
  have hk : ∀ x : Row, keepParsed (parseRow x) = validRow x := fun _ => rfl
  induction l with
  | nil => rfl
  | cons x t ih =>
      by_cases h : validRow x = true
      · simp [List.filter_cons, hk, h, ih]
      · simp only [Bool.not_eq_true] at h
        simp [List.filter_cons, hk, h, ih]

/-- C1: rows whose Lat or Long cell does not coerce to a number are
excluded from the JSON export and from the marker list, the export
length equals the number of rows whose two coordinate cells both coerce,
and each surviving row contributes exactly one record, in order. -/
theorem c1_coordinate_filter (flags : ColFlags) (links : String → Option String) (rows : List Row) :
    coursesExport flags links rows = (rows.filter validRow).map (fun r => buildRecord flags links (parseRow r))
    ∧ (coursesExport flags links rows).length = rows.countP validRow
    ∧ (markersMetaList flags links rows).length = rows.countP validRow := by
  have h1 : coursesExport flags links rows
      = (rows.filter validRow).map (fun r => buildRecord flags links (parseRow r)) := by
    unfold coursesExport
    rw [foldl_snoc_map, filter_parse_comm]
    simp [List.map_map, Function.comp]
  have h2 : markersMetaList flags links rows
      = (rows.filter validRow).map (fun r => markerMetaOf flags links (parseRow r)) := by
    unfold markersMetaList
    rw [foldl_snoc_map, filter_parse_comm]
    simp [List.map_map, Function.comp]
  refine ⟨h1, ?_, ?_⟩
  · rw [h1]
    simp [List.countP_eq_length_filter]
  · rw [h2]
    simp [List.countP_eq_length_filter]

/-- C5: normalize_type is total over the fixed category set and fixes
each of its members. -/
theorem c5_normalize_total_idempotent :
    (∀ v : CellVal, normalize_type v ∈ fixedTypes)
    ∧ (∀ s : String, s ∈ fixedTypes → normalize_type (CellVal.str s) = s) := by
  constructor
  · intro v
    cases v with
    | str s =>
        simp only [normalize_type]
        split_ifs <;> decide
    | blank => decide
    | num q => exact show ("Public" : String) ∈ fixedTypes by decide
    | date d => exact show ("Public" : String) ∈ fixedTypes by decide
  · intro s hs
    fin_cases hs <;> decide

/-- Witness for C5: the theorem applied to one member of the fixed set. -/
theorem c5_normalize_witness : normalize_type (CellVal.str "Semi-Private") = "Semi-Private" :=
  c5_normalize_total_idempotent.2 "Semi-Private" (by decide)

/-- C6: after applyFilters a marker is visible exactly when its category
checkbox is checked, the played-only toggle (when on) is satisfied, and
the has-video toggle (when on) is satisfied; unchecking one category
hides that category and leaves every other marker's visibility
unchanged. -/
theorem c6_filter_visibility (ts : String → Bool) (po vo : Bool) (mm : MarkerMeta) (c : String) (b : Bool) :
    markerVisible ts po vo mm = (ts mm.type && (!po || mm.played) && (!vo || mm.video))
    ∧ (mm.type = c → markerVisible (setChecked ts c false) po vo mm = false)
    ∧ (mm.type ≠ c → markerVisible (setChecked ts c b) po vo mm = markerVisible ts po vo mm) := by
  refine ⟨?_, ?_, ?_⟩
  · cases po <;> cases vo <;>
      simp [markerVisible, Bool.and_assoc]
  · intro h
    subst h
    cases po <;> cases vo <;> simp [markerVisible, setChecked]
  · intro h
    have hx : setChecked ts c b mm.type = ts mm.type := by simp [setChecked, h]
    simp [markerVisible, hx]

/-- Witness for C6: unchecking Private hides a Private marker that has a
video while no other toggle is active. -/
theorem c6_filter_witness :
    markerVisible (setChecked (fun _ => true) "Private" false) false false ⟨"Private", false, true⟩ = false :=
  (c6_filter_visibility (fun _ => true) false false ⟨"Private", false, true⟩ "Private" false).2.1 rfl

/-- C2 counterexample: the input "semiprivate" contains "semi" (it is
"semi" followed by "private") yet normalizes to "Public", not to
"Semi-Private", because the code compares against an exact list of
spellings instead of matching a substring. -/
theorem c2_substring_counterexample :
    ("semiprivate" : String) = "semi" ++ "private"
    ∧ normalize_type (CellVal.str "semiprivate") = "Public"
    ∧ ("Public" : String) ≠ "Semi-Private" :=
  ⟨by decide, by decide, by decide⟩

/-- C2 amended: normalization returns Semi-Private exactly when the
trimmed lowercased input is one of the three spellings "semi private",
"semi-private", "semi"; merely containing "semi" is not enough. -/
theorem c2_semi_exact_match (x : String) :
    normalize_type (CellVal.str x) = "Semi-Private"
    ↔ (pyLower (pyStrip x) = "semi private" ∨ pyLower (pyStrip x) = "semi-private" ∨ pyLower (pyStrip x) = "semi") := by
  simp only [normalize_type]
  split_ifs with h0 h1 h2 h3 h4
  · rw [h0]; decide
  · exact iff_of_true rfl h1
  · exact iff_of_false (by decide) h1
  · exact iff_of_false (by decide) h1
  · exact iff_of_false (by decide) h1
  · exact iff_of_false (by decide) h1

/-- A row whose 1st Played cell holds the unparseable text "TBD". -/
def rowTBD : Row :=
  ⟨CellVal.str "Test Course", CellVal.blank, CellVal.blank, CellVal.str "Public", CellVal.blank,
   CellVal.str "39.5", CellVal.str "-104.9", CellVal.str "TBD", CellVal.blank, CellVal.blank⟩

/-- C3 counterexample: a row whose 1st Played cell holds text the date
parser rejects is exported with played = true, not false, though the
text is preserved for display; the claim requires played = false for
such a row. -/
theorem c3_unparseable_counterexample :
    parseDate "TBD" = none
    ∧ (coursesExport ⟨true, false, false⟩ (fun _ => none) [rowTBD]).map
        (fun rec => (rec.played, rec.first_played)) = [(true, "TBD")] :=
  ⟨rfl, by rfl⟩

/-- C3 amended: the played flag is true exactly when the displayed
first-played value differs from the placeholder; the 1st Played column
(when present) is surfaced through fmt_date, and a blank cell yields
played = false, but non-blank unparseable text is preserved as the
display value and yields played = true. -/
theorem c3_played_iff_display (flags : ColFlags) (links : String → Option String) (r : ParsedRow) :
    (buildRecord flags links r).played = ((buildRecord flags links r).first_played != "—")
    ∧ (flags.hasFirstPlayed = true → (buildRecord flags links r).first_played = fmt_date r.firstPlayed)
    ∧ (is_blank r.firstPlayed = true → (buildRecord flags links r).played = false) := by
  refine ⟨rfl, ?_, ?_⟩
  · intro h
    simp [buildRecord, h]
  · intro h
    cases hf : flags.hasFirstPlayed
    · simp [buildRecord, hf]
    · have hfd : fmt_date r.firstPlayed = "—" := by
        cases hc : r.firstPlayed with
        | blank => rfl
        | str s =>
            rw [hc] at h
            simp only [is_blank, decide_eq_true_eq] at h
            simp [fmt_date, fmtDateStr, h]
        | num q => rw [hc] at h; simp [is_blank] at h
        | date d => rw [hc] at h; simp [is_blank] at h
      simp [buildRecord, hf, hfd]

/-- Witness for C3's amended theorem: a blank 1st Played cell gives
played = false. -/
theorem c3_played_witness :
    (buildRecord ⟨true, false, false⟩ (fun _ => none)
      ⟨CellVal.blank, CellVal.blank, CellVal.blank, "Public", CellVal.blank,
       some 39, some (-105), CellVal.blank, CellVal.blank, CellVal.blank⟩).played = false :=
  (c3_played_iff_display ⟨true, false, false⟩ (fun _ => none)
    ⟨CellVal.blank, CellVal.blank, CellVal.blank, "Public", CellVal.blank,
     some 39, some (-105), CellVal.blank, CellVal.blank, CellVal.blank⟩).2.2 rfl

/-- A workbook row whose Reel cell carries a hyperlink whose target is
not an HTTP URL. -/
def wbRowMailto : XlsxRow :=
  ⟨CellVal.str "Course X", ⟨some ⟨some "mailto:cam@example.com"⟩, CellVal.blank⟩⟩

/-- The matching data row of the tabular snapshot. -/
def rowX : Row :=
  ⟨CellVal.str "Course X", CellVal.blank, CellVal.blank, CellVal.blank, CellVal.blank,
   CellVal.str "39.5", CellVal.str "-104.9", CellVal.blank, CellVal.blank, CellVal.blank⟩

/-- C4 counterexample: a hyperlink target is stored without any scheme
check, so the exported record has has_video = true while video_url is a
non-empty string that does not start with an HTTP scheme, refuting the
claimed equivalence. -/
theorem c4_nonhttp_counterexample :
    (coursesExport ⟨false, false, true⟩ (extractReelLinks [wbRowMailto]) [rowX]).map
      (fun rec => (rec.has_video, rec.video_url, pyStartsWith (pyLower rec.video_url) "http"))
      = [(true, "mailto:cam@example.com", false)] := by rfl

/-- C4 amended: has_video is true exactly when video_url is non-empty;
a non-empty video_url that did not come from the workbook-hyperlink
lookup necessarily starts with http (case-insensitively), but a
hyperlink target is stored verbatim and need not. -/
theorem c4_has_video_iff_nonempty (flags : ColFlags) (links : String → Option String) (r : ParsedRow) :
    (buildRecord flags links r).has_video = ((buildRecord flags links r).video_url != "")
    ∧ (dictGetD links (clean_text r.course) "" = "" →
        (buildRecord flags links r).video_url ≠ "" →
        pyStartsWith (pyLower ((buildRecord flags links r).video_url)) "http" = true) := by
  obtain ⟨f1, f2, f3⟩ := flags
  have hv : (buildRecord ⟨f1, f2, f3⟩ links r).video_url
      = (if f3 then
          (if dictGetD links (clean_text r.course) "" ≠ "" then dictGetD links (clean_text r.course) ""
           else textFallbackUrl r.reel)
         else "") := rfl
  refine ⟨rfl, ?_⟩
  intro hd hne
  rw [hv] at hne ⊢
  cases f3
  · simp at hne
  · rw [hd] at hne ⊢
    simp at hne ⊢
    cases hr : r.reel with
    | str v =>
        rw [hr] at hne
        by_cases hsw : pyStartsWith (pyLower (pyStrip v)) "http" = true
        · simp [textFallbackUrl, hsw]
        · simp only [Bool.not_eq_true] at hsw
          simp [textFallbackUrl, hsw] at hne
    | blank => rw [hr] at hne; simp [textFallbackUrl] at hne
    | num q => rw [hr] at hne; simp [textFallbackUrl] at hne
    | date d => rw [hr] at hne; simp [textFallbackUrl] at hne

/-- Witness for C4's amended theorem: a plain-text fallback URL starts
with http. -/
theorem c4_has_video_witness :
    pyStartsWith (pyLower ((buildRecord ⟨false, false, true⟩ (fun _ => none)
      ⟨CellVal.blank, CellVal.blank, CellVal.blank, "Public", CellVal.blank,
       some 39, some (-105), CellVal.blank, CellVal.blank, CellVal.str "HTTPS://example.com/reel"⟩).video_url)) "http" = true :=
  (c4_has_video_iff_nonempty ⟨false, false, true⟩ (fun _ => none)
    ⟨CellVal.blank, CellVal.blank, CellVal.blank, "Public", CellVal.blank,
     some 39, some (-105), CellVal.blank, CellVal.blank, CellVal.str "HTTPS://example.com/reel"⟩).2 rfl (by decide)

/-- C7 counterexample: a cell whose hyperlink object carries the
non-empty whitespace target " " next to http display text yields the
display text, not the target, because the target is truthy before the
strip but empty after it. -/
theorem c7_whitespace_target_counterexample :
    cellUrl ⟨some ⟨some " "⟩, CellVal.str "http://display.example"⟩ = "http://display.example"
    ∧ (" " : String) ≠ "" :=
  ⟨by decide, by decide⟩

/-- C7 amended: the stripped hyperlink target wins whenever it is
non-empty; the display-text fallback is used when the hyperlink or its
target is absent, or the target is empty or whitespace-only. -/
theorem c7_target_precedence (t : String) (v : CellVal) :
    (pyStrip t ≠ "" → cellUrl ⟨some ⟨some t⟩, v⟩ = pyStrip t)
    ∧ (pyStrip t = "" → cellUrl ⟨some ⟨some t⟩, v⟩ = textFallbackUrl v) := by
  constructor
  · intro h
    have ht : t ≠ "" := by
      intro h0
      exact h (by rw [h0]; rfl)
    simp [cellUrl, hyperlinkUrl, ht, h]
  · intro h
    by_cases ht : t = ""
    · simp [cellUrl, hyperlinkUrl, ht]
    · simp [cellUrl, hyperlinkUrl, ht, h]

/-- Witness for C7's amended theorem: a real hyperlink target beats the
display text. -/
theorem c7_target_witness :
    cellUrl ⟨some ⟨some "https://real.example/reel"⟩, CellVal.str "display text"⟩ = "https://real.example/reel" :=
  (c7_target_precedence "https://real.example/reel" (CellVal.str "display text")).1 (by decide)

/-- C8: when a required column is absent (after header stripping) the
program aborts with the ValueError built from the list of missing
columns and produces no export; when every required column is present
the pipeline runs and no such error is raised. -/
theorem c8_required_columns (columns : List String) (links : String → Option String) (rows : List Row) :
    (missingCols (columns.map pyStrip) = [] →
      runProgram columns links rows = Except.ok (coursesExport (colFlagsOf (columns.map pyStrip)) links rows))
    ∧ (missingCols (columns.map pyStrip) ≠ [] →
      runProgram columns links rows = Except.error (errorMsg (missingCols (columns.map pyStrip)))) := by
  constructor
  · intro h
    simp [runProgram, h]
  · intro h
    have hne : (missingCols (columns.map pyStrip)).isEmpty = false := by
      cases hm : missingCols (columns.map pyStrip)
      · exact absurd hm h
      · rfl
    simp [runProgram, hne]

/-- Witness for C8: a sheet exposing only the Course column aborts with
the message naming the six other required columns. -/
theorem c8_missing_witness :
    runProgram ["Course"] (fun _ => none) []
      = Except.error (errorMsg ["Address", "City", "Type", "Region", "Lat", "Long"]) := by
  have h := (c8_required_columns ["Course"] (fun _ => none) []).2 (by decide)
  exact h.trans (by rfl)

/-- The scenario row of the specification: semi-private type written in
lowercase, string coordinates, visit order 3, no first-played date and
no video link. -/
def row9 : Row :=
  ⟨CellVal.str "Pinehurst CO", CellVal.blank, CellVal.blank, CellVal.str "semi private", CellVal.blank,
   CellVal.str "39.5", CellVal.str "-104.9", CellVal.blank, CellVal.str "3", CellVal.blank⟩

/-- C9: running the program on the scenario row with the required
columns plus Order yields exactly one exported record, of normalized
type Semi-Private, with order 3 (exported as its decimal string),
played = false and has_video = false. -/
theorem c9_pinehurst_scenario :
    (runProgram (required_cols ++ ["Order"]) (fun _ => none) [row9]).toOption.map
      (fun recs => recs.map (fun rec => (rec.type, rec.order, rec.played, rec.has_video)))
      = some [("Semi-Private", some "3", false, false)] := by rfl

/-- Folding the last-match accumulator from any seed. -/
theorem lastMatch_go (name : String) (t : List XlsxRow) :
    ∀ a : Option XlsxRow,
      t.foldl (lastUpd name) a
        = (match lastMatch name t with
           | some x => some x
           | none => a) := by
  induction t with
  | nil => intro a; rfl
  | cons r t ih =>
      intro a
      have hl : lastMatch name (r :: t) = t.foldl (lastUpd name) (lastUpd name none r) := rfl
      show t.foldl (lastUpd name) (lastUpd name a r) = _
      rw [ih (lastUpd name a r), hl, ih (lastUpd name none r)]
      cases hm : lastMatch name t
      · simp only []
        unfold lastUpd
        by_cases h : matchesName name r = true
        · simp [h]
        · simp only [Bool.not_eq_true] at h
          simp [h]
      · simp only []

/-- The dict produced by the extractor scan, looked up at a name, is the
URL of the last row bearing that name, or the seed's entry when no row
does. -/
theorem extract_go (name : String) (rows : List XlsxRow) :
    ∀ out : String → Option String,
      (rows.foldl reelStep out) name
        = (match lastMatch name rows with
           | some x => some (cellUrl x.reelCell)
           | none => out name) := by
  induction rows with
  | nil => intro out; rfl
  | cons r t ih =>
      intro out
      have hl : lastMatch name (r :: t) = t.foldl (lastUpd name) (lastUpd name none r) := rfl
      show (t.foldl reelStep (reelStep out r)) name = _
      rw [ih (reelStep out r), hl, lastMatch_go name t (lastUpd name none r)]
      cases hm : lastMatch name t
      · simp only []
        unfold lastUpd reelStep matchesName
        cases r.course with
        | str c =>
            by_cases hb : pyStrip c = ""
            · simp [hb, dictSet]
            · by_cases hn : pyStrip c = name
              · have hb2 : ¬(name = "") := by rw [← hn]; exact hb
                simp [hb, hn, hb2, dictSet]
              · have hn2 : ¬(name = pyStrip c) := fun e => hn e.symm
                simp [hb, hn, hn2, dictSet]
        | blank => simp
        | num q => simp
        | date d => simp
      · simp only []

/-- C10: the extractor binds each non-blank trimmed course name to the
URL computed from the last workbook row bearing that name (later
duplicates silently overwrite earlier ones), and a link cell with no
hyperlink object and no http-prefixed text still contributes — its URL
is the empty string, which can overwrite a real URL bound by an earlier
duplicate row. -/
theorem c10_last_row_wins (rows : List XlsxRow) (name : String) :
    extractReelLinks rows name = (lastMatch name rows).map (fun x => cellUrl x.reelCell)
    ∧ (∀ cell : XlsxCell, cell.hyperlink = none →
        (∀ v, cell.value = CellVal.str v → pyStartsWith (pyLower (pyStrip v)) "http" = false) →
        cellUrl cell = "") := by
  constructor
  · have h : extractReelLinks rows name = (rows.foldl reelStep (fun _ => none)) name := rfl
    rw [h, extract_go name rows]
    cases lastMatch name rows
    · rfl
    · rfl
  · intro cell h1 h2
    have hc : cellUrl cell = if hyperlinkUrl cell.hyperlink = "" then textFallbackUrl cell.value else hyperlinkUrl cell.hyperlink := rfl
    rw [hc, h1]
    simp only [hyperlinkUrl, if_pos rfl, if_true]
    cases hv : cell.value with
    | str v => simp [textFallbackUrl, h2 v hv]
    | blank => rfl
    | num q => rfl
    | date d => rfl

/-- First duplicate row for the course X, carrying a real hyperlink. -/
def wbDupWithLink : XlsxRow :=
  ⟨CellVal.str "X", ⟨some ⟨some "http://a.example/reel"⟩, CellVal.blank⟩⟩

/-- Second duplicate row for the course X, with neither hyperlink nor
http text. -/
def wbDupNoLink : XlsxRow :=
  ⟨CellVal.str "X", ⟨none, CellVal.str "coming soon"⟩⟩

/-- Witness for C10: the later duplicate row without any link overwrites
the earlier row's real URL with the empty string. -/
theorem c10_overwrite_witness :
    extractReelLinks [wbDupWithLink, wbDupNoLink] "X" = some ""
    ∧ cellUrl wbDupNoLink.reelCell = "" := by
  constructor
  · exact ((c10_last_row_wins [wbDupWithLink, wbDupNoLink] "X").1).trans (by rfl)
  · exact (c10_last_row_wins [] "X").2 wbDupNoLink.reelCell rfl
      (fun v hv => by cases hv; decide)
